import Mathlib

/-!
Verification of the Braindiff error-handling module and drop-schema script.

The source under verification is the `Errors` module (types `Success`,
`Failure`, `Result`; functions `tryCatch`, `trySync`, `wrap`; class
`WrappedError` with methods `unwrap`, `toString` and static `cause`) and
the maintenance script `dropSchemas` in `src/db/scripts/drop.ts`.
-/

namespace Braindiff

/-- The TypeScript type `Result<T, E> = Success<T> | Failure<E>` is a
discriminated union: `Success<T>` holds `data : T` with `error: undefined`,
`Failure<E>` holds `error : E` with `data: undefined`.  It is embedded as a
tagged union; the two record fields are recovered by the accessors below,
with `Option.none` modelling the absent (`undefined`) slot. -/
inductive Result (T E : Type) where
  | ok (data : T)
  | err (error : E)
deriving DecidableEq, Repr

/-- The `data` field of a `Result` record: the success value on the
`Success` arm, `undefined` (modelled as `none`) on the `Failure` arm. -/
def Result.data {T E : Type} : Result T E → Option T
  | .ok d => some d
  | .err _ => none

/-- The `error` field of a `Result` record: `undefined` (modelled as
`none`) on the `Success` arm, the error value on the `Failure` arm. -/
def Result.error {T E : Type} : Result T E → Option E
  | .ok _ => none
  | .err e => some e

/-- The observable outcome of running a JavaScript computation: a promise
either settles fulfilled with a value (`value v`) or rejects with a thrown
value (`thrown e`); likewise a synchronous callable either returns or
throws.  `E` is an arbitrary type because JavaScript lets any value be
thrown; the source merely casts the caught value (`error as E`). -/
inductive ExecOutcome (T E : Type) where
  | value (v : T)
  | thrown (e : E)
deriving DecidableEq, Repr

/-- `tryCatch(promise)` awaits the promise inside `try`/`catch` and
returns `{ data, error: undefined }` on fulfilment and
`{ data: undefined, error }` on rejection.  It is a total function into
`Result` (it never itself throws or rejects): the caught value is passed
through unmodified. -/
def tryCatch {T E : Type} (promise : ExecOutcome T E) : Result T E :=
  match promise with
  | .value data => Result.ok data
  | .thrown e => Result.err e

/-- `trySync(fn)` calls the zero-argument callable `fn` immediately inside
`try`/`catch` and returns `{ data, error: undefined }` on normal return
and `{ data: undefined, error }` when `fn` throws. -/
def trySync {T E : Type} (fn : Unit → ExecOutcome T E) : Result T E :=
  match fn () with
  | .value data => Result.ok data
  | .thrown e => Result.err e

/-- A JavaScript `Error` value as the module observes it.  Each value
carries an `objectId : Nat` modelling its heap reference, so that
reference identity (`===` / distinctness of separately allocated objects)
is expressible.  The five constructors record what the `cause` property of
the object holds, which is exactly what the chain walk in
`WrappedError.cause` inspects:
  * `plain`: no own `cause` property at all;
  * `plainWithNullCause`: a `cause` property that is `null` or `undefined`;
  * `plainWithNonErrorCause`: a `cause` property holding a value that is
    not an `instanceof Error` (recorded only by a description string);
  * `plainWithErrorCause`: a `cause` property holding another `Error`;
  * `wrapped`: an instance of the class `WrappedError`, whose constructor
    sets `name = "WrappedError"`, stores `message` and always stores an
    `Error` in its `cause` field. -/
inductive JSError where
  | plain (objectId : Nat) (name : String) (message : String)
  | plainWithNullCause (objectId : Nat) (name : String) (message : String)
  | plainWithNonErrorCause (objectId : Nat) (name : String) (message : String)
      (causeDesc : String)
  | plainWithErrorCause (objectId : Nat) (name : String) (message : String)
      (cause : JSError)
  | wrapped (objectId : Nat) (message : String) (cause : JSError)
deriving DecidableEq, Repr

/-- The `name` property: `WrappedError` instances have their `name` set to
the string `"WrappedError"` by the constructor. -/
def JSError.name : JSError → String
  | .plain _ n _ => n
  | .plainWithNullCause _ n _ => n
  | .plainWithNonErrorCause _ n _ _ => n
  | .plainWithErrorCause _ n _ _ => n
  | .wrapped _ _ _ => "WrappedError"

/-- The `message` property. -/
def JSError.message : JSError → String
  | .plain _ _ m => m
  | .plainWithNullCause _ _ m => m
  | .plainWithNonErrorCause _ _ m _ => m
  | .plainWithErrorCause _ _ m _ => m
  | .wrapped _ m _ => m

/-- The heap reference of the value (see `JSError`). -/
def JSError.objectId : JSError → Nat
  | .plain i _ _ => i
  | .plainWithNullCause i _ _ => i
  | .plainWithNonErrorCause i _ _ _ => i
  | .plainWithErrorCause i _ _ _ => i
  | .wrapped i _ _ => i

/-- The next link of the cause chain, exactly as the loop condition
`"cause" in result && result.cause != null && result.cause instanceof
Error` sees it: `some c` when the `cause` property is present, non-null
and an `Error`; `none` otherwise. -/
def JSError.causeLink : JSError → Option JSError
  | .plainWithErrorCause _ _ _ c => some c
  | .wrapped _ _ c => some c
  | _ => none

/-- A value is terminal for the chain walk when the loop condition fails
on it: no `cause` property, a `null`/`undefined` one, or one that is not
an `Error`. -/
def JSError.isTerminal (e : JSError) : Bool :=
  (e.causeLink).isNone

/-- `unwrap()` is a method of the class `WrappedError` only; it returns
`this.cause`.  On a value that is not a `WrappedError` instance the method
does not exist, modelled by `none`. -/
def JSError.unwrap : JSError → Option JSError
  | .wrapped _ _ c => some c
  | _ => none

/-- `Error.prototype.toString()`: the message alone when `name` is empty,
the name alone when `message` is empty, otherwise `name ++ ": " ++
message`.  The default rendering ignores the `cause` property. -/
def defaultErrorToString (name message : String) : String :=
  if name = "" then message
  else if message = "" then name
  else name ++ ": " ++ message

/-- `toString()` with JavaScript method dispatch.  `WrappedError`
overrides it as `this.message ++ ": " ++ this.cause.toString()`; every
other `Error` uses the default prototype rendering. -/
def JSError.toString : JSError → String
  | .plain _ n m => defaultErrorToString n m
  | .plainWithNullCause _ n m => defaultErrorToString n m
  | .plainWithNonErrorCause _ n m _ => defaultErrorToString n m
  | .plainWithErrorCause _ n m _ => defaultErrorToString n m
  | .wrapped _ m c => m ++ ": " ++ JSError.toString c

/-- The static method `WrappedError.cause(error)`: starting from `error`,
repeatedly move to `result.cause` while the `cause` property is present,
non-null and an `Error`; return the final `result`. -/
def WrappedError.cause : JSError → JSError
  | .wrapped _ _ c => WrappedError.cause c
  | .plainWithErrorCause _ _ _ c => WrappedError.cause c
  | e => e

/-- `wrap(cause, message)` is `new WrappedError(message, cause)`: it
allocates a fresh object (`freshId` models the fresh heap reference) whose
`name` is `"WrappedError"`, whose `message` is `message` and whose `cause`
is exactly the given value. -/
def wrap (cause : JSError) (message : String) (freshId : Nat) : JSError :=
  JSError.wrapped freshId message cause

/-- The number of `Error`-valued cause links below a value: the length of
its cause chain. -/
def chainLength : JSError → Nat
  | .wrapped _ _ c => chainLength c + 1
  | .plainWithErrorCause _ _ _ c => chainLength c + 1
  | _ => 0

/-- The while loop of `WrappedError.cause` run for at most `fuel`
iterations: each iteration follows one cause link; the loop stops early as
soon as the condition fails. -/
def causeLoop : Nat → JSError → JSError
  | 0, e => e
  | fuel + 1, e =>
    match e.causeLink with
    | some c => causeLoop fuel c
    | none => e

/-- Iterated wrapping: `deepWrap [(m1, i1), ..., (mk, ik)] root` is
`wrap (... (wrap root mk ik) ...) m1 i1`, a chain of depth `k` above
`root`. -/
def deepWrap (ws : List (String × Nat)) (root : JSError) : JSError :=
  ws.foldr (fun p acc => wrap acc p.1 p.2) root

/-- JavaScript `String.prototype.trim()` as the script uses it: the
string with leading and trailing whitespace removed, computed structurally
over the character list so that it evaluates on concrete inputs. -/
def jsTrim (s : String) : String :=
  String.mk (((s.data.dropWhile Char.isWhitespace).reverse.dropWhile
    Char.isWhitespace).reverse)

/-- One line printed by the drop-schema script, tagged by the console
channel used (`console.log`, `console.warn`, `console.error`); the
two-argument call `console.error(msg, err)` keeps the error value. -/
inductive ConsoleLine (E : Type) where
  | log (s : String)
  | warn (s : String)
  | errorWith (s : String) (e : E)
  | errorMsg (s : String)
deriving DecidableEq, Repr

/-- State accumulated by the loop of `dropSchemas`: the console lines in
order, the schema names for which a `DROP SCHEMA` statement was actually
issued (in order), and the `success` flag. -/
structure LoopOut (E : Type) where
  logs : List (ConsoleLine E)
  attempted : List String
  success : Bool
deriving DecidableEq, Repr

/-- The observable result of running `dropSchemas`: console output,
issued drop statements, and the `process.exit` status code. -/
structure ScriptRun (E : Type) where
  logs : List (ConsoleLine E)
  attempted : List String
  exitCode : Nat
deriving DecidableEq, Repr

/-- The `for` loop of `dropSchemas` over the remaining names.  `db s` is
the settlement of the promise `db.execute(DROP SCHEMA IF EXISTS s
CASCADE)`, which the script passes through `Errors.try` (`tryCatch`) and
then inspects via the truthiness of `result.error` (error objects are
truthy, `undefined` is falsy).  An entry whose `trim()` is empty (falsy)
is skipped with a warning and no statement is issued. -/
def dropLoop {R E : Type} (db : String → ExecOutcome R E) :
    List String → LoopOut E
  | [] => ⟨[], [], true⟩
  | schemaName :: rest =>
    let out := dropLoop db rest
    if jsTrim schemaName = "" then
      ⟨ConsoleLine.warn "Skipping empty schema name." :: out.logs,
        out.attempted, out.success⟩
    else
      match (tryCatch (db schemaName)).error with
      | some e =>
        ⟨ConsoleLine.errorWith ("Error dropping schema " ++ schemaName ++ ":") e
            :: out.logs,
          schemaName :: out.attempted, false⟩
      | none =>
        ⟨ConsoleLine.log ("Successfully dropped schema: " ++ schemaName)
            :: out.logs,
          schemaName :: out.attempted, out.success⟩

/-- `dropSchemas(schemaNames)`: with an empty list it logs a no-op message
and exits 0 before issuing anything; otherwise it runs the loop over all
names with `success` initially `true`, then exits 0 with an all-success
message when `success` survived, and exits 1 with a failure message
otherwise. -/
def dropSchemas {R E : Type} (db : String → ExecOutcome R E)
    (schemaNames : List String) : ScriptRun E :=
  if schemaNames.length = 0 then
    ⟨[ConsoleLine.log "No schemas specified to drop."], [], 0⟩
  else
    let out := dropLoop db schemaNames
    if out.success then
      ⟨out.logs ++ [ConsoleLine.log "All specified schemas dropped successfully."],
        out.attempted, 0⟩
    else
      ⟨out.logs ++ [ConsoleLine.errorMsg "Some schemas failed to drop."],
        out.attempted, 1⟩

theorem strAppendAssoc (a b c : String) : a ++ b ++ c = a ++ (b ++ c) := by
  rcases a with ⟨a⟩; rcases b with ⟨b⟩; rcases c with ⟨c⟩
  show String.mk (a ++ b ++ c) = String.mk (a ++ (b ++ c))
  rw [List.append_assoc]

/-- Claim C1: for every promise that resolves with value `v`, the
asynchronous wrapper `tryCatch` (exposed as `Errors.try`) returns an
Ok-variant `Result` whose `data` field is exactly `v` and whose `error`
field is absent (`undefined`). -/
theorem tryCatch_resolve_ok (T E : Type) (v : T) :
    @tryCatch T E (ExecOutcome.value v) = Result.ok v ∧
    (@tryCatch T E (ExecOutcome.value v)).data = some v ∧
    (@tryCatch T E (ExecOutcome.value v)).error = none :=
  ⟨rfl, rfl, rfl⟩

/-- Claim C2: for every promise that rejects with thrown value `e` (of an
arbitrary type `E`, covering non-error thrown values), `tryCatch` is a
total function into `Result` — it returns a fulfilled Err-variant rather
than rejecting — whose `error` field is exactly the unmodified value `e`
and whose `data` field is absent. -/
theorem tryCatch_reject_err (T E : Type) (e : E) :
    @tryCatch T E (ExecOutcome.thrown e) = Result.err e ∧
    (@tryCatch T E (ExecOutcome.thrown e)).error = some e ∧
    (@tryCatch T E (ExecOutcome.thrown e)).data = none :=
  ⟨rfl, rfl, rfl⟩

/-- Claim C3: for every zero-argument callable that returns `v` without
throwing, `trySync` returns Ok(`v`) (data `v`, error absent); for every
callable that throws `e`, it returns Err(`e`) (error `e`, data absent) —
in both cases it is a total function, so it never itself throws. -/
theorem trySync_ok_and_err (T E : Type) (v : T) (e : E)
    (fn gn : Unit → ExecOutcome T E)
    (hf : fn () = ExecOutcome.value v) (hg : gn () = ExecOutcome.thrown e) :
    trySync fn = Result.ok v ∧
    (trySync fn).data = some v ∧ (trySync fn).error = none ∧
    trySync gn = Result.err e ∧
    (trySync gn).error = some e ∧ (trySync gn).data = none := by
  refine ⟨?_, ?_, ?_, ?_, ?_, ?_⟩ <;>
    simp [trySync, hf, hg, Result.data, Result.error]

/-- Witness for C3 at a returning callable producing `3` and a throwing
callable throwing the string `"oops"`. -/
theorem trySync_ok_and_err_witness :
    trySync (fun _ => @ExecOutcome.value Nat String 3) = Result.ok 3 ∧
    (trySync (fun _ => @ExecOutcome.value Nat String 3)).data = some 3 ∧
    (trySync (fun _ => @ExecOutcome.value Nat String 3)).error = none ∧
    trySync (fun _ => @ExecOutcome.thrown Nat String "oops") = Result.err "oops" ∧
    (trySync (fun _ => @ExecOutcome.thrown Nat String "oops")).error = some "oops" ∧
    (trySync (fun _ => @ExecOutcome.thrown Nat String "oops")).data = none :=
  trySync_ok_and_err Nat String 3 "oops"
    (fun _ => @ExecOutcome.value Nat String 3)
    (fun _ => @ExecOutcome.thrown Nat String "oops") rfl rfl

/-- Claim C4: for every error-like `cause` and every string `message`,
`wrap cause message` produces a chained-error value whose own `message`
equals `message`, whose `name` is `"WrappedError"`, and whose `unwrap()`
returns exactly `cause`. -/
theorem wrap_unwrap_round_trip (cause : JSError) (message : String)
    (freshId : Nat) :
    (wrap cause message freshId).message = message ∧
    (wrap cause message freshId).name = "WrappedError" ∧
    (wrap cause message freshId).unwrap = some cause :=
  ⟨rfl, rfl, rfl⟩

/-- Claim C7: `toString` of a chained error concatenates its own message,
the separator `": "` and the rendered form of its immediate cause
(recursively, by method dispatch); in particular a double wrap with
messages `"A"` and `"B"` renders as `"A: B: "` followed by the rendering
of the root cause. -/
theorem toString_chain (c root : JSError) (m : String) (i i1 i2 : Nat) :
    (wrap c m i).toString = m ++ ": " ++ c.toString ∧
    (wrap (wrap root "B" i1) "A" i2).toString = "A: B: " ++ root.toString := by
  refine ⟨rfl, ?_⟩
  show "A" ++ ": " ++ ("B" ++ ": " ++ root.toString) = "A: B: " ++ root.toString
  rw [← strAppendAssoc ("A" ++ ": ") ("B" ++ ": ") root.toString]
  rfl

/-- Claim C9: two calls of `wrap` on the same cause with the same message
allocate two distinct chained-error values (distinct heap references,
modelled by distinct fresh ids); each of them unwraps to the identical
cause and their string renderings coincide. -/
theorem wrap_twice_distinct (cause : JSError) (m : String) (i1 i2 : Nat)
    (h : i1 ≠ i2) :
    wrap cause m i1 ≠ wrap cause m i2 ∧
    (wrap cause m i1).unwrap = some cause ∧
    (wrap cause m i2).unwrap = some cause ∧
    (wrap cause m i1).toString = (wrap cause m i2).toString := by
  refine ⟨?_, rfl, rfl, rfl⟩
  intro hc
  exact h (by simpa [wrap] using congrArg JSError.objectId hc)

/-- Witness for C9: wrapping the same plain error twice under fresh ids
`1` and `2`. -/
theorem wrap_twice_distinct_witness :
    wrap (JSError.plain 0 "Error" "boom") "ctx" 1 ≠
      wrap (JSError.plain 0 "Error" "boom") "ctx" 2 ∧
    (wrap (JSError.plain 0 "Error" "boom") "ctx" 1).unwrap =
      some (JSError.plain 0 "Error" "boom") ∧
    (wrap (JSError.plain 0 "Error" "boom") "ctx" 2).unwrap =
      some (JSError.plain 0 "Error" "boom") ∧
    (wrap (JSError.plain 0 "Error" "boom") "ctx" 1).toString =
      (wrap (JSError.plain 0 "Error" "boom") "ctx" 2).toString :=
  wrap_twice_distinct (JSError.plain 0 "Error" "boom") "ctx" 1 2 (by decide)

theorem cause_of_terminal (e : JSError) (h : e.isTerminal = true) :
    WrappedError.cause e = e := by
  cases e with
  | plain i n m => rfl
  | plainWithNullCause i n m => rfl
  | plainWithNonErrorCause i n m d => rfl
  | plainWithErrorCause i n m c =>
    simp [JSError.isTerminal, JSError.causeLink] at h
  | wrapped i m c =>
    simp [JSError.isTerminal, JSError.causeLink] at h

theorem cause_isTerminal (e : JSError) :
    (WrappedError.cause e).isTerminal = true := by
  induction e with
  | plain i n m => rfl
  | plainWithNullCause i n m => rfl
  | plainWithNonErrorCause i n m d => rfl
  | plainWithErrorCause i n m c ih => simpa [WrappedError.cause] using ih
  | wrapped i m c ih => simpa [WrappedError.cause] using ih

theorem causeLoop_terminal (e : JSError) (h : e.causeLink = none) :
    ∀ k, causeLoop k e = e := by
  intro k
  cases k with
  | zero => rfl
  | succ n => simp [causeLoop, h]

theorem causeLoop_reaches (e : JSError) :
    ∀ k, causeLoop (chainLength e + k) e = WrappedError.cause e := by
  induction e with
  | plain i n m =>
    intro k; exact causeLoop_terminal (JSError.plain i n m) rfl _
  | plainWithNullCause i n m =>
    intro k; exact causeLoop_terminal (JSError.plainWithNullCause i n m) rfl _
  | plainWithNonErrorCause i n m d =>
    intro k
    exact causeLoop_terminal (JSError.plainWithNonErrorCause i n m d) rfl _
  | plainWithErrorCause i n m c ih =>
    intro k
    have harith :
        chainLength (JSError.plainWithErrorCause i n m c) + k =
          (chainLength c + k) + 1 := by
      simp [chainLength]; omega
    rw [harith]
    show causeLoop (chainLength c + k + 1)
        (JSError.plainWithErrorCause i n m c) = _
    simpa [causeLoop, JSError.causeLink, WrappedError.cause] using ih k
  | wrapped i m c ih =>
    intro k
    have harith :
        chainLength (JSError.wrapped i m c) + k = (chainLength c + k) + 1 := by
      simp [chainLength]; omega
    rw [harith]
    show causeLoop (chainLength c + k + 1) (JSError.wrapped i m c) = _
    simpa [causeLoop, JSError.causeLink, WrappedError.cause] using ih k

theorem cause_deepWrap (ws : List (String × Nat)) (root : JSError) :
    WrappedError.cause (deepWrap ws root) = WrappedError.cause root := by
  induction ws with
  | nil => rfl
  | cons p rest ih => simpa [deepWrap, wrap, WrappedError.cause] using ih

/-- Claim C6: the chain walk of `WrappedError.cause` terminates on every
finite acyclic cause chain: running the loop for exactly `chainLength e`
iterations already yields the walk result, and any additional fuel changes
nothing — the number of steps is bounded by the chain length, with no
arbitrary cap and no looping. -/
theorem cause_walk_terminates (e : JSError) (k : Nat) :
    causeLoop (chainLength e) e = WrappedError.cause e ∧
    causeLoop (chainLength e + k) e = WrappedError.cause e :=
  ⟨causeLoop_reaches e 0, causeLoop_reaches e k⟩

/-- Claim C5: `WrappedError.cause` follows nested cause links and returns
the terminal value (the first with no `cause` property, a null/absent one,
or a non-error one): its result is always terminal and is reached by the
link-following loop; a terminal (plain, non-chained) error is returned
unchanged; and on any tower of wraps above a terminal `root` — in
particular the double wrap with messages `"B"` then `"A"`, and every chain
depth via `deepWrap` — it returns exactly `root`. -/
theorem cause_returns_root (e root : JSError) (ws : List (String × Nat))
    (m1 m2 : String) (i1 i2 : Nat) (hroot : root.isTerminal = true) :
    (WrappedError.cause e).isTerminal = true ∧
    (∃ n, causeLoop n e = WrappedError.cause e) ∧
    (e.isTerminal = true → WrappedError.cause e = e) ∧
    WrappedError.cause (wrap (wrap root m2 i1) m1 i2) = root ∧
    WrappedError.cause (deepWrap ws root) = root := by
  refine ⟨cause_isTerminal e, ⟨chainLength e, causeLoop_reaches e 0⟩,
    cause_of_terminal e, ?_, ?_⟩
  · show WrappedError.cause (JSError.wrapped i2 m1 (JSError.wrapped i1 m2 root)) = root
    simpa [WrappedError.cause] using cause_of_terminal root hroot
  · rw [cause_deepWrap]
    exact cause_of_terminal root hroot

/-- Witness for C5 at a plain terminal error, a double wrap above it, and
a depth-one `deepWrap` chain. -/
theorem cause_returns_root_witness :
    (WrappedError.cause (JSError.plain 0 "Error" "boom")).isTerminal = true ∧
    (∃ n, causeLoop n (JSError.plain 0 "Error" "boom") =
      WrappedError.cause (JSError.plain 0 "Error" "boom")) ∧
    ((JSError.plain 0 "Error" "boom").isTerminal = true →
      WrappedError.cause (JSError.plain 0 "Error" "boom") =
        JSError.plain 0 "Error" "boom") ∧
    WrappedError.cause
        (wrap (wrap (JSError.plain 0 "Error" "boom") "B" 1) "A" 2) =
      JSError.plain 0 "Error" "boom" ∧
    WrappedError.cause (deepWrap [("C", 3)] (JSError.plain 0 "Error" "boom")) =
      JSError.plain 0 "Error" "boom" :=
  cause_returns_root (JSError.plain 0 "Error" "boom")
    (JSError.plain 0 "Error" "boom") [("C", 3)] "A" "B" 1 2 (by decide)

theorem dropLoop_nil {R E : Type} (db : String → ExecOutcome R E) :
    dropLoop db [] = ⟨[], [], true⟩ := rfl

theorem dropLoop_cons_blank {R E : Type} (db : String → ExecOutcome R E)
    (name : String) (rest : List String) (h : jsTrim name = "") :
    dropLoop db (name :: rest) =
      ⟨ConsoleLine.warn "Skipping empty schema name." :: (dropLoop db rest).logs,
        (dropLoop db rest).attempted, (dropLoop db rest).success⟩ := by
  simp [dropLoop, h]

theorem dropLoop_cons_ok {R E : Type} (db : String → ExecOutcome R E)
    (name : String) (rest : List String) (r : R) (h : ¬jsTrim name = "")
    (hdb : db name = ExecOutcome.value r) :
    dropLoop db (name :: rest) =
      ⟨ConsoleLine.log ("Successfully dropped schema: " ++ name) ::
          (dropLoop db rest).logs,
        name :: (dropLoop db rest).attempted, (dropLoop db rest).success⟩ := by
  simp [dropLoop, h, hdb, tryCatch, Result.error]

theorem dropLoop_cons_err {R E : Type} (db : String → ExecOutcome R E)
    (name : String) (rest : List String) (e : E) (h : ¬jsTrim name = "")
    (hdb : db name = ExecOutcome.thrown e) :
    dropLoop db (name :: rest) =
      ⟨ConsoleLine.errorWith ("Error dropping schema " ++ name ++ ":") e ::
          (dropLoop db rest).logs,
        name :: (dropLoop db rest).attempted, false⟩ := by
  simp [dropLoop, h, hdb, tryCatch, Result.error]

theorem dropLoop_all_value {R E : Type} (db : String → ExecOutcome R E)
    (hall : ∀ t, ∃ r, db t = ExecOutcome.value r) (names : List String) :
    (dropLoop db names).success = true ∧
    ∀ t ∈ (dropLoop db names).attempted,
      ConsoleLine.log ("Successfully dropped schema: " ++ t) ∈
        (dropLoop db names).logs := by
  induction names with
  | nil => exact ⟨rfl, by simp [dropLoop_nil]⟩
  | cons name rest ih =>
    obtain ⟨hs, hmem⟩ := ih
    by_cases htrim : jsTrim name = ""
    · rw [dropLoop_cons_blank db name rest htrim]
      refine ⟨hs, ?_⟩
      intro t ht
      exact List.mem_cons_of_mem _ (hmem t ht)
    · obtain ⟨r, hr⟩ := hall name
      rw [dropLoop_cons_ok db name rest r htrim hr]
      refine ⟨hs, ?_⟩
      intro t ht
      rcases List.mem_cons.mp ht with h | h
      · subst h; exact List.mem_cons_self _ _
      · exact List.mem_cons_of_mem _ (hmem t h)

theorem dropLoop_failure {R E : Type} (db : String → ExecOutcome R E)
    (s : String) (e : E) (hne : ¬jsTrim s = "")
    (he : db s = ExecOutcome.thrown e) (names : List String) (hmem : s ∈ names) :
    (dropLoop db names).success = false ∧
    ConsoleLine.errorWith ("Error dropping schema " ++ s ++ ":") e ∈
      (dropLoop db names).logs := by
  induction names with
  | nil => cases hmem
  | cons name rest ih =>
    rcases List.mem_cons.mp hmem with h | h
    · subst h
      rw [dropLoop_cons_err db s rest e hne he]
      exact ⟨rfl, List.mem_cons_self _ _⟩
    · obtain ⟨hs, hl⟩ := ih h
      by_cases htrim : jsTrim name = ""
      · rw [dropLoop_cons_blank db name rest htrim]
        exact ⟨hs, List.mem_cons_of_mem _ hl⟩
      · cases hdb : db name with
        | value r =>
          rw [dropLoop_cons_ok db name rest r htrim hdb]
          exact ⟨hs, List.mem_cons_of_mem _ hl⟩
        | thrown e2 =>
          rw [dropLoop_cons_err db name rest e2 htrim hdb]
          exact ⟨rfl, List.mem_cons_of_mem _ hl⟩

theorem dropLoop_attempted {R E : Type} (db : String → ExecOutcome R E)
    (names : List String) :
    (dropLoop db names).attempted =
      names.filter (fun t => !(jsTrim t == "")) := by
  induction names with
  | nil => rfl
  | cons name rest ih =>
    by_cases htrim : jsTrim name = ""
    · rw [dropLoop_cons_blank db name rest htrim]
      simp [List.filter, htrim, ih]
    · have hb : (jsTrim name == "") = false := beq_eq_false_iff_ne.mpr htrim
      cases hdb : db name with
      | value r =>
        rw [dropLoop_cons_ok db name rest r htrim hdb]
        simp [List.filter, hb, ih]
      | thrown e =>
        rw [dropLoop_cons_err db name rest e htrim hdb]
        simp [List.filter, hb, ih]

theorem dropLoop_warn {R E : Type} (db : String → ExecOutcome R E)
    (s : String) (hs : jsTrim s = "") (names : List String) (hmem : s ∈ names) :
    ConsoleLine.warn "Skipping empty schema name." ∈ (dropLoop db names).logs := by
  induction names with
  | nil => cases hmem
  | cons name rest ih =>
    rcases List.mem_cons.mp hmem with h | h
    · subst h
      rw [dropLoop_cons_blank db s rest hs]
      exact List.mem_cons_self _ _
    · by_cases htrim : jsTrim name = ""
      · rw [dropLoop_cons_blank db name rest htrim]
        exact List.mem_cons_of_mem _ (ih h)
      · cases hdb : db name with
        | value r =>
          rw [dropLoop_cons_ok db name rest r htrim hdb]
          exact List.mem_cons_of_mem _ (ih h)
        | thrown e =>
          rw [dropLoop_cons_err db name rest e htrim hdb]
          exact List.mem_cons_of_mem _ (ih h)

theorem dropLoop_all_blank {R E : Type} (db : String → ExecOutcome R E)
    (names : List String) (h : ∀ t ∈ names, jsTrim t = "") :
    dropLoop db names =
      ⟨names.map (fun _ => ConsoleLine.warn "Skipping empty schema name."),
        [], true⟩ := by
  induction names with
  | nil => rfl
  | cons name rest ih =>
    have h1 : jsTrim name = "" := h name (List.mem_cons_self _ _)
    have h2 := ih (fun t ht => h t (List.mem_cons_of_mem _ ht))
    rw [dropLoop_cons_blank db name rest h1, h2]
    rfl

theorem dropSchemas_of_success {R E : Type} (db : String → ExecOutcome R E)
    (names : List String) (hne : ¬names.length = 0)
    (hs : (dropLoop db names).success = true) :
    dropSchemas db names =
      ⟨(dropLoop db names).logs ++
          [ConsoleLine.log "All specified schemas dropped successfully."],
        (dropLoop db names).attempted, 0⟩ := by
  simp [dropSchemas, hne, hs]

theorem dropSchemas_of_failure {R E : Type} (db : String → ExecOutcome R E)
    (names : List String) (hne : ¬names.length = 0)
    (hs : (dropLoop db names).success = false) :
    dropSchemas db names =
      ⟨(dropLoop db names).logs ++
          [ConsoleLine.errorMsg "Some schemas failed to drop."],
        (dropLoop db names).attempted, 1⟩ := by
  simp [dropSchemas, hne, hs]

/-- Claim C8: `dropSchemas` on the empty input list logs the no-op
message and exits 0 without issuing any drop statement; on
`["analytics", ""]` (with the drop of `"analytics"` succeeding) the empty
entry is skipped with a warning and not attempted, success is reported per
schema and the exit status is 0; when every attempted drop succeeds it
reports per-schema success and exits 0; when any attempted drop fails it
reports that failure and exits 1. -/
theorem dropSchemas_scenarios {R E : Type}
    (dbAll dbBad db0 : String → ExecOutcome R E)
    (names bnames : List String) (s : String) (e : E) (r : R)
    (hA : dbAll "analytics" = ExecOutcome.value r)
    (hall : ∀ t, ∃ r2, dbAll t = ExecOutcome.value r2)
    (hs : s ∈ bnames) (hstrim : ¬jsTrim s = "")
    (he : dbBad s = ExecOutcome.thrown e) :
    dropSchemas db0 [] =
      ⟨[ConsoleLine.log "No schemas specified to drop."], [], 0⟩ ∧
    dropSchemas dbAll ["analytics", ""] =
      ⟨[ConsoleLine.log "Successfully dropped schema: analytics",
        ConsoleLine.warn "Skipping empty schema name.",
        ConsoleLine.log "All specified schemas dropped successfully."],
        ["analytics"], 0⟩ ∧
    (dropSchemas dbAll names).exitCode = 0 ∧
    (∀ t ∈ (dropSchemas dbAll names).attempted,
      ConsoleLine.log ("Successfully dropped schema: " ++ t) ∈
        (dropSchemas dbAll names).logs) ∧
    (dropSchemas dbBad bnames).exitCode = 1 ∧
    ConsoleLine.errorWith ("Error dropping schema " ++ s ++ ":") e ∈
      (dropSchemas dbBad bnames).logs := by
  have htne : ¬(jsTrim "analytics" = "") := by decide
  have hloop : dropLoop dbAll ["analytics", ""] =
      ⟨[ConsoleLine.log "Successfully dropped schema: analytics",
        ConsoleLine.warn "Skipping empty schema name."], ["analytics"], true⟩ := by
    rw [dropLoop_cons_ok dbAll "analytics" [""] r htne hA]
    rw [dropLoop_cons_blank dbAll "" [] rfl]
    rfl
  obtain ⟨hsuc, hmem⟩ := dropLoop_all_value dbAll hall names
  have hbne : ¬bnames.length = 0 :=
    fun h0 => (List.ne_nil_of_mem hs) (List.length_eq_zero.mp h0)
  obtain ⟨hfs, hfl⟩ := dropLoop_failure dbBad s e hstrim he bnames hs
  refine ⟨rfl, ?_, ?_, ?_, ?_, ?_⟩
  · rw [dropSchemas_of_success dbAll ["analytics", ""] (by decide) (by rw [hloop])]
    rw [hloop]
    rfl
  · by_cases hlen : names.length = 0
    · rw [List.length_eq_zero.mp hlen]; rfl
    · rw [dropSchemas_of_success dbAll names hlen hsuc]
  · by_cases hlen : names.length = 0
    · rw [List.length_eq_zero.mp hlen]
      intro t ht
      cases ht
    · rw [dropSchemas_of_success dbAll names hlen hsuc]
      exact fun t ht => List.mem_append_left _ (hmem t ht)
  · rw [dropSchemas_of_failure dbBad bnames hbne hfs]
  · rw [dropSchemas_of_failure dbBad bnames hbne hfs]
    exact List.mem_append_left _ hfl

/-- Witness for C8 with a database in which every drop succeeds, one in
which the drop of `"bad"` is rejected with `"permission denied"`, and the
input lists `[]`, `["analytics", ""]`, `["analytics"]` and `["bad"]`. -/
theorem dropSchemas_scenarios_witness :
    dropSchemas (fun _ => @ExecOutcome.value Unit String ()) [] =
      ⟨[ConsoleLine.log "No schemas specified to drop."], [], 0⟩ ∧
    dropSchemas (fun _ => @ExecOutcome.value Unit String ()) ["analytics", ""] =
      ⟨[ConsoleLine.log "Successfully dropped schema: analytics",
        ConsoleLine.warn "Skipping empty schema name.",
        ConsoleLine.log "All specified schemas dropped successfully."],
        ["analytics"], 0⟩ ∧
    (dropSchemas (fun _ => @ExecOutcome.value Unit String ())
        ["analytics"]).exitCode = 0 ∧
    (∀ t ∈ (dropSchemas (fun _ => @ExecOutcome.value Unit String ())
        ["analytics"]).attempted,
      ConsoleLine.log ("Successfully dropped schema: " ++ t) ∈
        (dropSchemas (fun _ => @ExecOutcome.value Unit String ())
          ["analytics"]).logs) ∧
    (dropSchemas (fun _ => @ExecOutcome.thrown Unit String "permission denied")
        ["bad"]).exitCode = 1 ∧
    ConsoleLine.errorWith ("Error dropping schema " ++ "bad" ++ ":")
        "permission denied" ∈
      (dropSchemas (fun _ => @ExecOutcome.thrown Unit String "permission denied")
        ["bad"]).logs :=
  dropSchemas_scenarios (fun _ => @ExecOutcome.value Unit String ())
    (fun _ => @ExecOutcome.thrown Unit String "permission denied")
    (fun _ => @ExecOutcome.value Unit String ())
    ["analytics"] ["bad"] "bad" "permission denied" ()
    rfl (fun _ => ⟨(), rfl⟩) (List.mem_cons_self _ _) (by decide) rfl

/-- Claim C10: an entry of the drop-schema script is skipped exactly when
its trimmed form is empty — the issued drop statements are precisely the
entries whose `trim()` is non-empty, and a blank member produces the skip
warning; consequently a non-empty input list whose entries are all blank
issues no drop statement yet still prints the all-success message and
exits with status 0. -/
theorem dropSchemas_blank_skip {R E : Type} (db dbB : String → ExecOutcome R E)
    (names bl : List String) (s : String)
    (hbl : bl ≠ []) (hblank : ∀ t ∈ bl, jsTrim t = "")
    (hmem : s ∈ names) (hstrim : jsTrim s = "") :
    (dropSchemas db names).attempted =
      names.filter (fun t => !(jsTrim t == "")) ∧
    ConsoleLine.warn "Skipping empty schema name." ∈
      (dropSchemas db names).logs ∧
    dropSchemas dbB bl =
      ⟨bl.map (fun _ => ConsoleLine.warn "Skipping empty schema name.") ++
          [ConsoleLine.log "All specified schemas dropped successfully."],
        [], 0⟩ := by
  have hnen : ¬names.length = 0 :=
    fun h0 => (List.ne_nil_of_mem hmem) (List.length_eq_zero.mp h0)
  have hblen : ¬bl.length = 0 := fun h0 => hbl (List.length_eq_zero.mp h0)
  have hwarn := dropLoop_warn db s hstrim names hmem
  have hloopbl := dropLoop_all_blank dbB bl hblank
  have hparts :
      (dropSchemas db names).attempted = (dropLoop db names).attempted ∧
      ConsoleLine.warn "Skipping empty schema name." ∈
        (dropSchemas db names).logs := by
    cases hsuc : (dropLoop db names).success with
    | true =>
      rw [dropSchemas_of_success db names hnen hsuc]
      exact ⟨rfl, List.mem_append_left _ hwarn⟩
    | false =>
      rw [dropSchemas_of_failure db names hnen hsuc]
      exact ⟨rfl, List.mem_append_left _ hwarn⟩
  refine ⟨?_, hparts.2, ?_⟩
  · rw [hparts.1]
    exact dropLoop_attempted db names
  · rw [dropSchemas_of_success dbB bl hblen (by rw [hloopbl])]
    rw [hloopbl]

/-- Witness for C10 with the whitespace-only entry `"  "` inside
`["  ", "x"]` and the non-empty all-blank list `["  "]`. -/
theorem dropSchemas_blank_skip_witness :
    (dropSchemas (fun _ => @ExecOutcome.value Unit String ())
        ["  ", "x"]).attempted =
      (["  ", "x"] : List String).filter (fun t => !(jsTrim t == "")) ∧
    ConsoleLine.warn "Skipping empty schema name." ∈
      (dropSchemas (fun _ => @ExecOutcome.value Unit String ())
        ["  ", "x"]).logs ∧
    dropSchemas (fun _ => @ExecOutcome.value Unit String ()) ["  "] =
      ⟨(["  "] : List String).map
            (fun _ => ConsoleLine.warn "Skipping empty schema name.") ++
          [ConsoleLine.log "All specified schemas dropped successfully."],
        [], 0⟩ :=
  dropSchemas_blank_skip (fun _ => @ExecOutcome.value Unit String ())
    (fun _ => @ExecOutcome.value Unit String ())
    ["  ", "x"] ["  "] "  " (by decide) (by decide)
    (List.mem_cons_self _ _) (by decide)

end Braindiff
